import Mathlib

/-!
Verification of the `prophetable` pipeline (src/app/prophetable.py, src/app/run.py).

The development shallowly embeds the two stages of the pipeline that the
repository itself implements:

* the configuration loader (`Prophetable.__init__` / `Prophetable._get_config`),
  modelled by `Prophetable.init` / `getConfig` over an association list of JSON
  values; and
* the data-preparation stage (`Prophetable.make_data`), modelled by `make_data`
  over a small dataframe model (`Frame`) that implements the pandas operations
  the source uses: column selection, left merge (including pandas' `_x`/`_y`
  suffixing of overlapping column names), column drop, column rename, `fillna`,
  and constant-column assignment.

Timestamps are modelled as integers (day numbers); `pd.date_range` at the
`'D'`-style frequencies becomes `dateRange`.  File I/O (`read_csv`, `to_csv`,
`pickle`) and the calls into the external `fbprophet` library (`train`,
`predict`) are outside the model.  JSON arrays are modelled by a payload-free
constructor `jlist`: no modelled operation ever inspects an array's contents,
only its runtime type.
-/

/-- A JSON value as produced by Python's `json.load`.  Python distinguishes
`int` and `float` JSON numbers, which matters for `isinstance` checks, so the
model keeps two numeric constructors.  Array contents are never inspected by
any modelled operation, so `jlist` carries no payload. -/
inductive JValue where
  | jnull : JValue
  | jbool : Bool → JValue
  | jint : Int → JValue
  | jfloat : ℚ → JValue
  | jstr : String → JValue
  | jlist : JValue
deriving DecidableEq

/-- The Python runtime types used in `type_check` lists in `Prophetable.__init__`:
`int`, `float`, `str`, `list`. -/
inductive PType where
  | int : PType
  | float : PType
  | str : PType
  | list : PType
deriving DecidableEq

/-- Python's `isinstance` on JSON-decoded values.  Note `isinstance(True, int)`
is `True` in Python because `bool` subclasses `int`. -/
def isinstance : JValue → PType → Bool
  | .jint _, .int => true
  | .jbool _, .int => true
  | .jfloat _, .float => true
  | .jstr _, .str => true
  | .jlist, .list => true
  | _, _ => false

/-- A parsed JSON config document: a flat mapping from setting name to value
(`self._config`). -/
abbrev Config := List (String × JValue)

/-- The errors `Prophetable._get_config` can raise: the `ValueError` of
line 168 (`f'{attr} must be provided in config'`, the spec's
`ConfigMissingError`) and the `TypeError` of line 165 (`f'{attr} provided is
not {type_check}'`, the spec's `ConfigTypeError`).  Each carries the name of
the offending setting, as the Python messages do. -/
inductive ConfigError where
  | configMissingError : String → ConfigError
  | configTypeError : String → ConfigError
deriving DecidableEq

/-- `Prophetable._get_config` (prophetable.py lines 160-172).  Looks `attr` up
in the document; if present and a `type_check` list is given, a non-`None`
value whose type matches no entry raises `TypeError`; if absent, a required
setting raises `ValueError` and an optional one resolves to `default`. -/
def getConfig (cfg : Config) (attr : String) (required : Bool) (dflt : JValue)
    (typeCheck : Option (List PType)) : Except ConfigError JValue :=
  match cfg.lookup attr with
  | some v =>
    match typeCheck with
    | some ts =>
      if (v != JValue.jnull) && !(ts.any (isinstance v)) then
        .error (.configTypeError attr)
      else
        .ok v
    | none => .ok v
  | none =>
    if required then .error (.configMissingError attr) else .ok dflt

/-- The pipeline object's config-derived attributes, one field per
`_get_config` call in `Prophetable.__init__` (prophetable.py lines 94-154).
Values keep their raw JSON form. -/
structure Prophetable where
  data_uri : JValue
  train_uri : JValue
  output_uri : JValue
  model_uri : JValue
  holiday_input_uri : JValue
  holiday_output_uri : JValue
  delimiter : JValue
  ds : JValue
  y : JValue
  ts_frequency : JValue
  min_train_date : JValue
  max_train_date : JValue
  holidays : JValue
  saturating_min : JValue
  saturating_max : JValue
  na_fill : JValue
  growth : JValue
  changepoints : JValue
  n_changepoints : JValue
  changepoint_range : JValue
  yearly_seasonality : JValue
  weekly_seasonality : JValue
  daily_seasonality : JValue
  seasonality_mode : JValue
  seasonality_prior_scale : JValue
  holidays_prior_scale : JValue
  changepoint_prior_scale : JValue
  mcmc_samples : JValue
  interval_width : JValue
  uncertainty_samples : JValue
  stan_backend : JValue
  future_periods : JValue
deriving DecidableEq

/-- `Prophetable.__init__` (prophetable.py lines 90-158): the exact sequence of
`_get_config` calls, with the source's attribute names, `required` flags,
defaults and `type_check` lists.  The source calls `_get_config('holidays', …)`
twice (lines 120 and 137) with identical arguments; both calls are kept.  The
first failing call aborts construction, as the first uncaught Python exception
would. -/
def Prophetable.init (cfg : Config) : Except ConfigError Prophetable := do
  let data_uri ← getConfig cfg "data_uri" true .jnull none
  let train_uri ← getConfig cfg "train_uri" false .jnull none
  let output_uri ← getConfig cfg "output_uri" false .jnull none
  let model_uri ← getConfig cfg "model_uri" false .jnull none
  let holiday_input_uri ← getConfig cfg "holiday_input_uri" false .jnull none
  let holiday_output_uri ← getConfig cfg "holiday_output_uri" false .jnull none
  let delimiter ← getConfig cfg "delimiter" false (.jstr ",") none
  let ds ← getConfig cfg "ds" false (.jstr "ds") none
  let y ← getConfig cfg "y" false (.jstr "y") none
  let ts_frequency ← getConfig cfg "ts_frequency" false (.jstr "D") none
  let min_train_date ← getConfig cfg "min_train_date" false .jnull none
  let max_train_date ← getConfig cfg "max_train_date" false .jnull none
  let _holidays ← getConfig cfg "holidays" false .jnull none
  let saturating_min ← getConfig cfg "saturating_min" false .jnull (some [.int, .float])
  let saturating_max ← getConfig cfg "saturating_max" false .jnull (some [.int, .float])
  let na_fill ← getConfig cfg "na_fill" false .jnull (some [.int, .float])
  let growth ← getConfig cfg "growth" false (.jstr "linear") (some [.str])
  let changepoints ← getConfig cfg "changepoints" false .jnull (some [.list])
  let n_changepoints ← getConfig cfg "n_changepoints" false (.jint 25) (some [.int])
  let changepoint_range ← getConfig cfg "changepoint_range" false (.jfloat 0.8) (some [.float, .int])
  let yearly_seasonality ← getConfig cfg "yearly_seasonality" false (.jstr "auto") none
  let weekly_seasonality ← getConfig cfg "weekly_seasonality" false (.jstr "auto") none
  let daily_seasonality ← getConfig cfg "daily_seasonality" false (.jstr "auto") none
  let holidays ← getConfig cfg "holidays" false .jnull none
  let seasonality_mode ← getConfig cfg "seasonality_mode" false (.jstr "additive") (some [.str])
  let seasonality_prior_scale ← getConfig cfg "seasonality_prior_scale" false (.jfloat 10.0) (some [.float, .int])
  let holidays_prior_scale ← getConfig cfg "holidays_prior_scale" false (.jfloat 10.0) (some [.float, .int])
  let changepoint_prior_scale ← getConfig cfg "changepoint_prior_scale" false (.jfloat 0.05) (some [.float, .int])
  let mcmc_samples ← getConfig cfg "mcmc_samples" false (.jint 0) (some [.int])
  let interval_width ← getConfig cfg "interval_width" false (.jfloat 0.8) (some [.float])
  let uncertainty_samples ← getConfig cfg "uncertainty_samples" false (.jint 1000) (some [.int])
  let stan_backend ← getConfig cfg "stan_backend" false .jnull (some [.str])
  let future_periods ← getConfig cfg "future_periods" false (.jint 365) (some [.int])
  return { data_uri := data_uri, train_uri := train_uri, output_uri := output_uri,
           model_uri := model_uri, holiday_input_uri := holiday_input_uri,
           holiday_output_uri := holiday_output_uri, delimiter := delimiter,
           ds := ds, y := y, ts_frequency := ts_frequency,
           min_train_date := min_train_date, max_train_date := max_train_date,
           holidays := holidays, saturating_min := saturating_min,
           saturating_max := saturating_max, na_fill := na_fill, growth := growth,
           changepoints := changepoints, n_changepoints := n_changepoints,
           changepoint_range := changepoint_range,
           yearly_seasonality := yearly_seasonality,
           weekly_seasonality := weekly_seasonality,
           daily_seasonality := daily_seasonality,
           seasonality_mode := seasonality_mode,
           seasonality_prior_scale := seasonality_prior_scale,
           holidays_prior_scale := holidays_prior_scale,
           changepoint_prior_scale := changepoint_prior_scale,
           mcmc_samples := mcmc_samples, interval_width := interval_width,
           uncertainty_samples := uncertainty_samples,
           stan_backend := stan_backend, future_periods := future_periods }

/-- A cell of the modelled dataframe: a parsed timestamp (an integer day
number), a numeric value, or the missing marker `NaN`. -/
inductive Cell where
  | ts : Int → Cell
  | num : ℚ → Cell
  | na : Cell
deriving DecidableEq

/-- A modelled pandas dataframe: named columns and rows of cells, each row
aligned positionally with `cols`. -/
structure Frame where
  cols : List String
  rows : List (List Cell)
deriving DecidableEq

/-- Index of the first column with the given name, as pandas column lookup
resolves a label. -/
def idxOf : List String → String → Option Nat
  | [], _ => none
  | n :: ns, m => if n = m then some 0 else (idxOf ns m).map (· + 1)

/-- Extract a named column (`frame[name]`) as its list of cells. -/
def Frame.col? (f : Frame) (name : String) : Option (List Cell) :=
  (idxOf f.cols name).map fun i => f.rows.map fun r => r.getD i Cell.na

/-- A cell's timestamp payload, if it is one. -/
def Cell.asTs : Cell → Option Int
  | .ts t => some t
  | _ => none

/-- Extract every cell of a column as a parsed timestamp, failing on any cell
that is not one. -/
def tsList : List Cell → Option (List Int)
  | [] => some []
  | c :: cs => do
    let t ← Cell.asTs c
    let ts ← tsList cs
    some (t :: ts)

/-- The parsed-timestamp column `pd.to_datetime(data[ds])` (prophetable.py
line 176): the named column, required to consist of parsed timestamps. -/
def getTsCol (f : Frame) (name : String) : Option (List Int) := do
  let c ← f.col? name
  tsList c

/-- Resolve each of a list of column labels to its positional index. -/
def idxList (cols : List String) : List String → Option (List Nat)
  | [] => some []
  | n :: ns => do
    let i ← idxOf cols n
    let is ← idxList cols ns
    some (i :: is)

/-- Column projection `data[[ds, y]]` (prophetable.py line 185). -/
def Frame.select (f : Frame) (names : List String) : Option Frame := do
  let idxs ← idxList f.cols names
  some { cols := names, rows := f.rows.map fun r => idxs.map fun i => r.getD i Cell.na }

/-- `pd.merge(left, right, left_on=lk, right_on=rk, how='left')`
(prophetable.py lines 184-186).  When the two key labels coincide the key
column appears once; otherwise both key columns are kept.  Column names
occurring in both frames (other than a shared key label) receive pandas'
`_x`/`_y` suffixes.  Every left row is kept: it is repeated once per matching
right row, or padded with `NaN` when no right row matches. -/
def leftMerge (l r : Frame) (lk rk : String) : Option Frame := do
  let li ← idxOf l.cols lk
  let ri ← idxOf r.cols rk
  let overlap := l.cols.filter fun n => r.cols.contains n
  let suffixL := fun n => if n != lk && overlap.contains n then n ++ "_x" else n
  let suffixR := fun n => if n != rk && overlap.contains n then n ++ "_y" else n
  if lk = rk then
    some { cols := l.cols.map suffixL ++ (r.cols.eraseIdx ri).map suffixR,
           rows := l.rows.flatMap fun lr =>
             match r.rows.filter (fun rr => rr.getD ri Cell.na == lr.getD li Cell.na) with
             | [] => [lr ++ List.replicate (r.cols.length - 1) Cell.na]
             | ms => ms.map fun rr => lr ++ rr.eraseIdx ri }
  else
    some { cols := l.cols.map (fun n => if overlap.contains n then n ++ "_x" else n)
                   ++ r.cols.map (fun n => if overlap.contains n then n ++ "_y" else n),
           rows := l.rows.flatMap fun lr =>
             match r.rows.filter (fun rr => rr.getD ri Cell.na == lr.getD li Cell.na) with
             | [] => [lr ++ List.replicate r.cols.length Cell.na]
             | ms => ms.map fun rr => lr ++ rr }

/-- `frame.drop(columns=[name])` (prophetable.py line 188): remove every
column carrying that label, positionally. -/
def Frame.dropCol (f : Frame) (name : String) : Frame :=
  { cols := f.cols.filter (fun n => n != name),
    rows := f.rows.map fun r => ((f.cols.zip r).filter (fun p => p.1 != name)).map (·.2) }

/-- `frame.rename(columns={old: new})` (prophetable.py line 189). -/
def Frame.renameCol (f : Frame) (old new : String) : Frame :=
  { cols := f.cols.map fun n => if n = old then new else n, rows := f.rows }

/-- `frame.fillna(v)` (prophetable.py line 191): replace every missing marker
by `v`. -/
def Frame.fillna (f : Frame) (v : Cell) : Frame :=
  { cols := f.cols,
    rows := f.rows.map fun r => r.map fun c => if c = Cell.na then v else c }

/-- `frame[name] = v` with a scalar `v` (prophetable.py lines 193 and 195):
overwrite an existing column of that name, or append a new constant column. -/
def Frame.withConst (f : Frame) (name : String) (v : Cell) : Frame :=
  if f.cols.contains name then
    { cols := f.cols,
      rows := f.rows.map fun r => ((f.cols.zip r).map fun p => if p.1 = name then v else p.2) }
  else
    { cols := f.cols ++ [name], rows := f.rows.map fun r => r ++ [v] }

/-- `series.min()` over the parsed timestamp column. -/
def seriesMin : List Int → Option Int
  | [] => none
  | x :: xs => some (xs.foldl min x)

/-- `series.max()` over the parsed timestamp column. -/
def seriesMax : List Int → Option Int
  | [] => none
  | x :: xs => some (xs.foldl max x)

/-- The points `cur, cur + step, …` of a calendar, by explicit length. -/
def dateRangeAux : Nat → Int → Nat → List Int
  | 0, _, _ => []
  | n + 1, cur, step => cur :: dateRangeAux n (cur + step) step

/-- `pd.date_range(lo, hi, freq)` (prophetable.py line 182) for a day-count
frequency of `step` days: the arithmetic sequence from `lo` with stride
`step`, truncated at `hi`; empty when `hi < lo`. -/
def dateRange (lo hi : Int) (step : Nat) : List Int :=
  if hi < lo then [] else dateRangeAux ((hi - lo).toNat / step + 1) lo step

/-- The day-count stride of a pandas frequency string: `'D'` is one day and
`'<n>D'` is `n` days.  Other frequency aliases are outside the model. -/
def freqStep (s : String) : Option Nat :=
  if s = "D" then some 1
  else if s.endsWith "D" then
    match (s.dropRight 1).toNat? with
    | some n => if n = 0 then none else some n
    | none => none
  else none

/-- The pipeline attributes `make_data` reads and writes, in the typed form
the data stage uses them: column names and frequency as strings, dates as
day numbers, numeric settings as rationals, each optional setting `None`-able. -/
structure MakeDataState where
  ds : String
  y : String
  ts_frequency : String
  min_train_date : Option Int
  max_train_date : Option Int
  na_fill : Option ℚ
  saturating_min : Option ℚ
  saturating_max : Option ℚ
deriving DecidableEq

/-- `self.min_train_date if … else data[ds].min()` (prophetable.py lines
177-180): the configured bound when present, else the derived one. -/
def resolveBound (configured : Option Int) (derived : Option Int) : Option Int :=
  match configured with
  | some m => some m
  | none => derived

/-- `if self.na_fill is not None: … fillna(na_fill)` (prophetable.py lines
190-191): apply the fill value when one is configured. -/
def applyNaFill (naf : Option ℚ) (f : Frame) : Frame :=
  match naf with
  | some q => f.fillna (Cell.num q)
  | none => f

/-- `if self.saturating_min is not None: model_data['floor'] = …`
(prophetable.py lines 192-195): attach a constant bound column when that bound
is configured. -/
def applySat (name : String) (bound : Option ℚ) (f : Frame) : Frame :=
  match bound with
  | some q => f.withConst name (Cell.num q)
  | none => f

/-- `Prophetable.make_data` (prophetable.py lines 174-200), minus its file
I/O: `data` stands for the frame produced by `read_csv` with the `ds` column
already parsed to timestamps (line 175-176).  Resolves the train-date bounds,
builds the calendar, left-joins the raw `[ds, y]` columns onto it, drops the
raw timestamp column when its name is not the canonical `'ds'`, renames the
value column to `'y'`, applies `na_fill`, and attaches constant `floor`/`cap`
columns for configured saturating bounds.  Returns the updated state together
with the prepared frame. -/
def make_data (s : MakeDataState) (data : Frame) : Option (MakeDataState × Frame) := do
  let tsCol ← getTsCol data s.ds
  let lo ← resolveBound s.min_train_date (seriesMin tsCol)
  let hi ← resolveBound s.max_train_date (seriesMax tsCol)
  let step ← freqStep s.ts_frequency
  let calendar : Frame :=
    { cols := ["ds"], rows := (dateRange lo hi step).map fun t => [Cell.ts t] }
  let sub ← data.select [s.ds, s.y]
  let merged ← leftMerge calendar sub "ds" s.ds
  let dropped := if s.ds ≠ "ds" then merged.dropCol s.ds else merged
  let renamed := dropped.renameCol s.y "y"
  let filled := applyNaFill s.na_fill renamed
  let withFloor := applySat "floor" s.saturating_min filled
  let withCap := applySat "cap" s.saturating_max withFloor
  some ({ s with min_train_date := some lo, max_train_date := some hi }, withCap)

/-- A raw series (the spec's ordered sequence of timestamp/value pairs), as
the frame `read_csv` plus timestamp parsing produces from a two-column file
whose columns are named by configuration. -/
def rawFrame (dsName yName : String) (rs : List (Int × ℚ)) : Frame :=
  { cols := [dsName, yName], rows := rs.map fun p => [Cell.ts p.1, Cell.num p.2] }

/-- The methods defined in the body of `class Prophetable`
(prophetable.py lines 23-241). -/
def prophetableMethods : List String :=
  ["__init__", "_get_config", "make_data", "train", "predict"]

/-- An outcome of running the driver script. -/
inductive DriverResult where
  | configError : ConfigError → DriverResult
  | attributeError : String → DriverResult
  | finished : DriverResult
deriving DecidableEq

/-- The top-level driver `run.py` (lines 5-6): construct the pipeline from the
config, then invoke `p.run()` — an attribute lookup on the instance, which
raises `AttributeError` when the class defines no such method.  The second
component records which pipeline stages actually executed. -/
def driverRun (cfg : Config) : DriverResult × List String :=
  match Prophetable.init cfg with
  | .error e => (.configError e, [])
  | .ok _ =>
    if prophetableMethods.contains "run" then
      (.finished, ["make_data", "train", "predict"])
    else
      (.attributeError "run", [])

/-- Inversion for a successful `Except` bind. -/
theorem exceptBind_ok {e a b : Type} {x : Except e a} {f : a → Except e b} {v : b}
    (h : x >>= f = Except.ok v) : ∃ u, x = Except.ok u ∧ f u = Except.ok v := by
  cases x with
  | error err => exact absurd h (by simp [Bind.bind, Except.bind])
  | ok u => exact ⟨u, rfl, h⟩

/-- An optional setting absent from the document resolves to its default
(the `KeyError` branch of `_get_config`). -/
theorem getConfig_absent {cfg : Config} {attr : String} {dflt : JValue}
    {tc : Option (List PType)} (h : cfg.lookup attr = none) :
    getConfig cfg attr false dflt tc = .ok dflt := by
  rw [getConfig, h]
  rfl

/-- Each field of a successfully constructed pipeline object is the value its
`_get_config` call returned. -/
theorem Prophetable.init_fields {cfg : Config} {s : Prophetable}
    (h : Prophetable.init cfg = Except.ok s) :
    getConfig cfg "train_uri" false .jnull none = .ok s.train_uri ∧
    getConfig cfg "output_uri" false .jnull none = .ok s.output_uri ∧
    getConfig cfg "model_uri" false .jnull none = .ok s.model_uri ∧
    getConfig cfg "holiday_input_uri" false .jnull none = .ok s.holiday_input_uri ∧
    getConfig cfg "holiday_output_uri" false .jnull none = .ok s.holiday_output_uri ∧
    getConfig cfg "delimiter" false (.jstr ",") none = .ok s.delimiter ∧
    getConfig cfg "ds" false (.jstr "ds") none = .ok s.ds ∧
    getConfig cfg "y" false (.jstr "y") none = .ok s.y ∧
    getConfig cfg "ts_frequency" false (.jstr "D") none = .ok s.ts_frequency ∧
    getConfig cfg "min_train_date" false .jnull none = .ok s.min_train_date ∧
    getConfig cfg "max_train_date" false .jnull none = .ok s.max_train_date ∧
    getConfig cfg "saturating_min" false .jnull (some [.int, .float]) = .ok s.saturating_min ∧
    getConfig cfg "saturating_max" false .jnull (some [.int, .float]) = .ok s.saturating_max ∧
    getConfig cfg "na_fill" false .jnull (some [.int, .float]) = .ok s.na_fill ∧
    getConfig cfg "growth" false (.jstr "linear") (some [.str]) = .ok s.growth ∧
    getConfig cfg "changepoints" false .jnull (some [.list]) = .ok s.changepoints ∧
    getConfig cfg "n_changepoints" false (.jint 25) (some [.int]) = .ok s.n_changepoints ∧
    getConfig cfg "changepoint_range" false (.jfloat 0.8) (some [.float, .int]) = .ok s.changepoint_range ∧
    getConfig cfg "yearly_seasonality" false (.jstr "auto") none = .ok s.yearly_seasonality ∧
    getConfig cfg "weekly_seasonality" false (.jstr "auto") none = .ok s.weekly_seasonality ∧
    getConfig cfg "daily_seasonality" false (.jstr "auto") none = .ok s.daily_seasonality ∧
    getConfig cfg "holidays" false .jnull none = .ok s.holidays ∧
    getConfig cfg "seasonality_mode" false (.jstr "additive") (some [.str]) = .ok s.seasonality_mode ∧
    getConfig cfg "seasonality_prior_scale" false (.jfloat 10.0) (some [.float, .int]) = .ok s.seasonality_prior_scale ∧
    getConfig cfg "holidays_prior_scale" false (.jfloat 10.0) (some [.float, .int]) = .ok s.holidays_prior_scale ∧
    getConfig cfg "changepoint_prior_scale" false (.jfloat 0.05) (some [.float, .int]) = .ok s.changepoint_prior_scale ∧
    getConfig cfg "mcmc_samples" false (.jint 0) (some [.int]) = .ok s.mcmc_samples ∧
    getConfig cfg "interval_width" false (.jfloat 0.8) (some [.float]) = .ok s.interval_width ∧
    getConfig cfg "uncertainty_samples" false (.jint 1000) (some [.int]) = .ok s.uncertainty_samples ∧
    getConfig cfg "stan_backend" false .jnull (some [.str]) = .ok s.stan_backend ∧
    getConfig cfg "future_periods" false (.jint 365) (some [.int]) = .ok s.future_periods := by
  rw [Prophetable.init] at h
  obtain ⟨v1, h1, h⟩ := exceptBind_ok h
  obtain ⟨v2, h2, h⟩ := exceptBind_ok h
  obtain ⟨v3, h3, h⟩ := exceptBind_ok h
  obtain ⟨v4, h4, h⟩ := exceptBind_ok h
  obtain ⟨v5, h5, h⟩ := exceptBind_ok h
  obtain ⟨v6, h6, h⟩ := exceptBind_ok h
  obtain ⟨v7, h7, h⟩ := exceptBind_ok h
  obtain ⟨v8, h8, h⟩ := exceptBind_ok h
  obtain ⟨v9, h9, h⟩ := exceptBind_ok h
  obtain ⟨v10, h10, h⟩ := exceptBind_ok h
  obtain ⟨v11, h11, h⟩ := exceptBind_ok h
  obtain ⟨v12, h12, h⟩ := exceptBind_ok h
  obtain ⟨v13, h13, h⟩ := exceptBind_ok h
  obtain ⟨v14, h14, h⟩ := exceptBind_ok h
  obtain ⟨v15, h15, h⟩ := exceptBind_ok h
  obtain ⟨v16, h16, h⟩ := exceptBind_ok h
  obtain ⟨v17, h17, h⟩ := exceptBind_ok h
  obtain ⟨v18, h18, h⟩ := exceptBind_ok h
  obtain ⟨v19, h19, h⟩ := exceptBind_ok h
  obtain ⟨v20, h20, h⟩ := exceptBind_ok h
  obtain ⟨v21, h21, h⟩ := exceptBind_ok h
  obtain ⟨v22, h22, h⟩ := exceptBind_ok h
  obtain ⟨v23, h23, h⟩ := exceptBind_ok h
  obtain ⟨v24, h24, h⟩ := exceptBind_ok h
  obtain ⟨v25, h25, h⟩ := exceptBind_ok h
  obtain ⟨v26, h26, h⟩ := exceptBind_ok h
  obtain ⟨v27, h27, h⟩ := exceptBind_ok h
  obtain ⟨v28, h28, h⟩ := exceptBind_ok h
  obtain ⟨v29, h29, h⟩ := exceptBind_ok h
  obtain ⟨v30, h30, h⟩ := exceptBind_ok h
  obtain ⟨v31, h31, h⟩ := exceptBind_ok h
  obtain ⟨v32, h32, h⟩ := exceptBind_ok h
  obtain ⟨v33, h33, h⟩ := exceptBind_ok h
  injection h with h
  subst h
  exact ⟨h2, h3, h4, h5, h6, h7, h8, h9, h10, h11, h12, h14, h15, h16, h17, h18, h19, h20, h21, h22, h23, h24, h25, h26, h27, h28, h29, h30, h31, h32, h33⟩

/-- C4: for every optional setting absent from the config document, the
resolved pipeline attribute equals its documented default (delimiter `','`,
ds `'ds'`, y `'y'`, ts_frequency `'D'`, n_changepoints `25`, changepoint_range
`0.8`, interval_width `0.8`, uncertainty_samples `1000`, future_periods `365`,
and likewise for every other optional setting of `__init__`). -/
theorem init_absent_optional_defaults (cfg : Config) (s : Prophetable)
    (h : Prophetable.init cfg = Except.ok s) :
    (cfg.lookup "train_uri" = none → s.train_uri = JValue.jnull) ∧
    (cfg.lookup "output_uri" = none → s.output_uri = JValue.jnull) ∧
    (cfg.lookup "model_uri" = none → s.model_uri = JValue.jnull) ∧
    (cfg.lookup "holiday_input_uri" = none → s.holiday_input_uri = JValue.jnull) ∧
    (cfg.lookup "holiday_output_uri" = none → s.holiday_output_uri = JValue.jnull) ∧
    (cfg.lookup "delimiter" = none → s.delimiter = JValue.jstr ",") ∧
    (cfg.lookup "ds" = none → s.ds = JValue.jstr "ds") ∧
    (cfg.lookup "y" = none → s.y = JValue.jstr "y") ∧
    (cfg.lookup "ts_frequency" = none → s.ts_frequency = JValue.jstr "D") ∧
    (cfg.lookup "min_train_date" = none → s.min_train_date = JValue.jnull) ∧
    (cfg.lookup "max_train_date" = none → s.max_train_date = JValue.jnull) ∧
    (cfg.lookup "saturating_min" = none → s.saturating_min = JValue.jnull) ∧
    (cfg.lookup "saturating_max" = none → s.saturating_max = JValue.jnull) ∧
    (cfg.lookup "na_fill" = none → s.na_fill = JValue.jnull) ∧
    (cfg.lookup "growth" = none → s.growth = JValue.jstr "linear") ∧
    (cfg.lookup "changepoints" = none → s.changepoints = JValue.jnull) ∧
    (cfg.lookup "n_changepoints" = none → s.n_changepoints = JValue.jint 25) ∧
    (cfg.lookup "changepoint_range" = none → s.changepoint_range = JValue.jfloat 0.8) ∧
    (cfg.lookup "yearly_seasonality" = none → s.yearly_seasonality = JValue.jstr "auto") ∧
    (cfg.lookup "weekly_seasonality" = none → s.weekly_seasonality = JValue.jstr "auto") ∧
    (cfg.lookup "daily_seasonality" = none → s.daily_seasonality = JValue.jstr "auto") ∧
    (cfg.lookup "holidays" = none → s.holidays = JValue.jnull) ∧
    (cfg.lookup "seasonality_mode" = none → s.seasonality_mode = JValue.jstr "additive") ∧
    (cfg.lookup "seasonality_prior_scale" = none → s.seasonality_prior_scale = JValue.jfloat 10.0) ∧
    (cfg.lookup "holidays_prior_scale" = none → s.holidays_prior_scale = JValue.jfloat 10.0) ∧
    (cfg.lookup "changepoint_prior_scale" = none → s.changepoint_prior_scale = JValue.jfloat 0.05) ∧
    (cfg.lookup "mcmc_samples" = none → s.mcmc_samples = JValue.jint 0) ∧
    (cfg.lookup "interval_width" = none → s.interval_width = JValue.jfloat 0.8) ∧
    (cfg.lookup "uncertainty_samples" = none → s.uncertainty_samples = JValue.jint 1000) ∧
    (cfg.lookup "stan_backend" = none → s.stan_backend = JValue.jnull) ∧
    (cfg.lookup "future_periods" = none → s.future_periods = JValue.jint 365) := by
  obtain ⟨h1, h2, h3, h4, h5, h6, h7, h8, h9, h10, h11, h12, h13, h14, h15, h16, h17, h18, h19, h20, h21, h22, h23, h24, h25, h26, h27, h28, h29, h30, h31⟩ := Prophetable.init_fields h
  exact ⟨fun hn => Except.ok.inj (h1.symm.trans (getConfig_absent hn)),
    fun hn => Except.ok.inj (h2.symm.trans (getConfig_absent hn)),
    fun hn => Except.ok.inj (h3.symm.trans (getConfig_absent hn)),
    fun hn => Except.ok.inj (h4.symm.trans (getConfig_absent hn)),
    fun hn => Except.ok.inj (h5.symm.trans (getConfig_absent hn)),
    fun hn => Except.ok.inj (h6.symm.trans (getConfig_absent hn)),
    fun hn => Except.ok.inj (h7.symm.trans (getConfig_absent hn)),
    fun hn => Except.ok.inj (h8.symm.trans (getConfig_absent hn)),
    fun hn => Except.ok.inj (h9.symm.trans (getConfig_absent hn)),
    fun hn => Except.ok.inj (h10.symm.trans (getConfig_absent hn)),
    fun hn => Except.ok.inj (h11.symm.trans (getConfig_absent hn)),
    fun hn => Except.ok.inj (h12.symm.trans (getConfig_absent hn)),
    fun hn => Except.ok.inj (h13.symm.trans (getConfig_absent hn)),
    fun hn => Except.ok.inj (h14.symm.trans (getConfig_absent hn)),
    fun hn => Except.ok.inj (h15.symm.trans (getConfig_absent hn)),
    fun hn => Except.ok.inj (h16.symm.trans (getConfig_absent hn)),
    fun hn => Except.ok.inj (h17.symm.trans (getConfig_absent hn)),
    fun hn => Except.ok.inj (h18.symm.trans (getConfig_absent hn)),
    fun hn => Except.ok.inj (h19.symm.trans (getConfig_absent hn)),
    fun hn => Except.ok.inj (h20.symm.trans (getConfig_absent hn)),
    fun hn => Except.ok.inj (h21.symm.trans (getConfig_absent hn)),
    fun hn => Except.ok.inj (h22.symm.trans (getConfig_absent hn)),
    fun hn => Except.ok.inj (h23.symm.trans (getConfig_absent hn)),
    fun hn => Except.ok.inj (h24.symm.trans (getConfig_absent hn)),
    fun hn => Except.ok.inj (h25.symm.trans (getConfig_absent hn)),
    fun hn => Except.ok.inj (h26.symm.trans (getConfig_absent hn)),
    fun hn => Except.ok.inj (h27.symm.trans (getConfig_absent hn)),
    fun hn => Except.ok.inj (h28.symm.trans (getConfig_absent hn)),
    fun hn => Except.ok.inj (h29.symm.trans (getConfig_absent hn)),
    fun hn => Except.ok.inj (h30.symm.trans (getConfig_absent hn)),
    fun hn => Except.ok.inj (h31.symm.trans (getConfig_absent hn))⟩

/-- `x.isOk`-style discriminator for `Except`, used to state that construction
succeeded. -/
def exceptIsOk : Except ConfigError Prophetable → Bool
  | .ok _ => true
  | .error _ => false

/-- The fully defaulted pipeline object produced from a config document that
sets only `data_uri`. -/
def c4resolved : Prophetable :=
  { data_uri := JValue.jstr "x.csv", train_uri := JValue.jnull,
    output_uri := JValue.jnull, model_uri := JValue.jnull,
    holiday_input_uri := JValue.jnull, holiday_output_uri := JValue.jnull,
    delimiter := JValue.jstr ",", ds := JValue.jstr "ds", y := JValue.jstr "y",
    ts_frequency := JValue.jstr "D", min_train_date := JValue.jnull,
    max_train_date := JValue.jnull, holidays := JValue.jnull,
    saturating_min := JValue.jnull, saturating_max := JValue.jnull,
    na_fill := JValue.jnull, growth := JValue.jstr "linear",
    changepoints := JValue.jnull, n_changepoints := JValue.jint 25,
    changepoint_range := JValue.jfloat 0.8, yearly_seasonality := JValue.jstr "auto",
    weekly_seasonality := JValue.jstr "auto", daily_seasonality := JValue.jstr "auto",
    seasonality_mode := JValue.jstr "additive",
    seasonality_prior_scale := JValue.jfloat 10.0,
    holidays_prior_scale := JValue.jfloat 10.0,
    changepoint_prior_scale := JValue.jfloat 0.05, mcmc_samples := JValue.jint 0,
    interval_width := JValue.jfloat 0.8, uncertainty_samples := JValue.jint 1000,
    stan_backend := JValue.jnull, future_periods := JValue.jint 365 }

/-- A config document setting only the required `data_uri`. -/
def c4cfg : Config := [("data_uri", JValue.jstr "x.csv")]

/-- Witness for C4 at the concrete document that sets only `data_uri`: every
optional setting resolves to its documented default. -/
theorem init_absent_optional_defaults_witness :
    Prophetable.init c4cfg = Except.ok c4resolved ∧
    c4resolved.delimiter = JValue.jstr "," ∧
    c4resolved.n_changepoints = JValue.jint 25 ∧
    c4resolved.interval_width = JValue.jfloat 0.8 ∧
    c4resolved.uncertainty_samples = JValue.jint 1000 ∧
    c4resolved.future_periods = JValue.jint 365 := by
  have h : Prophetable.init c4cfg = Except.ok c4resolved := by rfl
  have hd := init_absent_optional_defaults c4cfg c4resolved h
  exact ⟨h, hd.2.2.2.2.2.1 rfl, hd.2.2.2.2.2.2.2.2.2.2.2.2.2.2.2.2.1 rfl, hd.2.2.2.2.2.2.2.2.2.2.2.2.2.2.2.2.2.2.2.2.2.2.2.2.2.2.2.1 rfl, hd.2.2.2.2.2.2.2.2.2.2.2.2.2.2.2.2.2.2.2.2.2.2.2.2.2.2.2.2.1 rfl, hd.2.2.2.2.2.2.2.2.2.2.2.2.2.2.2.2.2.2.2.2.2.2.2.2.2.2.2.2.2.2 rfl⟩

/-- C2: a config document lacking the required `data_uri` makes construction
fail with the missing-setting error naming `data_uri`; no pipeline object is
produced. -/
theorem init_missing_data_uri (cfg : Config) (h : cfg.lookup "data_uri" = none) :
    Prophetable.init cfg = Except.error (ConfigError.configMissingError "data_uri") := by
  rw [Prophetable.init, getConfig, h]
  rfl

/-- Witness for C2 at the empty config document. -/
theorem init_missing_data_uri_witness :
    Prophetable.init [] = Except.error (ConfigError.configMissingError "data_uri") :=
  init_missing_data_uri [] rfl

/-- C3 (amended): a setting present with a NON-NULL value whose type matches
no member of its declared type-check list makes `_get_config` fail with the
type error naming the setting.  (An explicit `null` value bypasses the check;
see the counterexample.) -/
theorem getConfig_type_mismatch (cfg : Config) (attr : String) (required : Bool)
    (dflt : JValue) (ts : List PType) (v : JValue)
    (hv : cfg.lookup attr = some v) (hnn : v ≠ JValue.jnull)
    (hty : ts.any (isinstance v) = false) :
    getConfig cfg attr required dflt (some ts) = .error (.configTypeError attr) := by
  rw [getConfig, hv]
  simp [hnn, hty]

/-- Witness for C3 (amended): a string value for the int-checked
`n_changepoints` is rejected with the type error naming it. -/
theorem getConfig_type_mismatch_witness :
    getConfig [("n_changepoints", JValue.jstr "twenty")] "n_changepoints" false
      (JValue.jint 25) (some [PType.int]) =
      Except.error (ConfigError.configTypeError "n_changepoints") :=
  getConfig_type_mismatch [("n_changepoints", JValue.jstr "twenty")] "n_changepoints"
    false (JValue.jint 25) [PType.int] (JValue.jstr "twenty") rfl (by decide) rfl

/-- A config document whose `saturating_min` is present with value `null`:
`NoneType` is not a member of the declared type-check list `[int, float]`. -/
def c3cfg : Config := [("data_uri", JValue.jstr "data.csv"), ("saturating_min", JValue.jnull)]

/-- C3 counterexample: `saturating_min` is present with a value (`null`) whose
type is outside its declared type-check list `[int, float]`, yet loading
succeeds — no `ConfigTypeError` is raised. -/
theorem c3_null_not_rejected :
    c3cfg.lookup "saturating_min" = some JValue.jnull ∧
    [PType.int, PType.float].any (isinstance JValue.jnull) = false ∧
    exceptIsOk (Prophetable.init c3cfg) = true := by
  refine ⟨rfl, rfl, ?_⟩
  rfl

/-- C10: a setting present with an explicit `null` bypasses any declared
type-check and resolves to `None`; in particular a document with
`"delimiter": null` yields attribute `None` rather than the default `','`. -/
theorem null_value_bypasses_type_check :
    (∀ (cfg : Config) (attr : String) (required : Bool) (dflt : JValue)
        (tc : Option (List PType)), cfg.lookup attr = some JValue.jnull →
        getConfig cfg attr required dflt tc = .ok JValue.jnull) ∧
    (∀ (cfg : Config) (s : Prophetable), Prophetable.init cfg = Except.ok s →
        cfg.lookup "delimiter" = some JValue.jnull → s.delimiter = JValue.jnull) := by
  constructor
  · intro cfg attr required dflt tc h
    rw [getConfig, h]
    cases tc with
    | none => rfl
    | some ts => rfl
  · intro cfg s h hd
    have h6 := (Prophetable.init_fields h).2.2.2.2.2.1
    have hnull : getConfig cfg "delimiter" false (JValue.jstr ",") none =
        Except.ok JValue.jnull := by rw [getConfig, hd]
    exact Except.ok.inj (h6.symm.trans hnull)

/-- The document `{"data_uri": "x.csv", "delimiter": null}`. -/
def c10cfg : Config := [("data_uri", JValue.jstr "x.csv"), ("delimiter", JValue.jnull)]

/-- The pipeline object resolved from `c10cfg`: delimiter is `None`, not `','`. -/
def c10resolved : Prophetable := { c4resolved with delimiter := JValue.jnull }

/-- Witness for C10: with `"delimiter": null` in the document, the resolved
delimiter is `None`, which differs from the documented default `','`. -/
theorem null_value_bypasses_type_check_witness :
    getConfig c10cfg "delimiter" false (JValue.jstr ",") none = Except.ok JValue.jnull ∧
    c10resolved.delimiter = JValue.jnull ∧
    JValue.jnull ≠ JValue.jstr "," :=
  ⟨null_value_bypasses_type_check.1 c10cfg "delimiter" false (JValue.jstr ",") none rfl,
   null_value_bypasses_type_check.2 c10cfg c10resolved (by rfl) rfl,
   by decide⟩

/-- The extra constant columns a configured saturating bound attaches:
`floor` for `saturating_min`, `cap` for `saturating_max`. -/
def extraCols (s : MakeDataState) : List String :=
  (match s.saturating_min with | some _ => ["floor"] | none => []) ++
  (match s.saturating_max with | some _ => ["cap"] | none => [])

/-- The cells those constant columns contribute to every row. -/
def extraCells (s : MakeDataState) : List Cell :=
  (match s.saturating_min with | some q => [Cell.num q] | none => []) ++
  (match s.saturating_max with | some q => [Cell.num q] | none => [])

/-- The value a calendar slot without a raw observation ends up holding:
the configured fill value, or the missing marker. -/
def fillCell : Option ℚ → Cell
  | some q => Cell.num q
  | none => Cell.na

/-- The prepared rows contributed by one calendar timestamp `t`: one row per
raw observation at `t`, or a single fill/missing row when none matches. -/
def joinRowsAt (s : MakeDataState) (rs : List (Int × ℚ)) (t : Int) : List (List Cell) :=
  match rs.filter (fun p => p.1 == t) with
  | [] => [[Cell.ts t, fillCell s.na_fill] ++ extraCells s]
  | ms => ms.map fun p => [Cell.ts t, Cell.num p.2] ++ extraCells s

/-- All prepared rows over a calendar. -/
def preparedRows (s : MakeDataState) (rs : List (Int × ℚ)) (cal : List Int) :
    List (List Cell) :=
  cal.flatMap (joinRowsAt s rs)

theorem dateRangeAux_chain (n : Nat) (cur : Int) (step : Nat) :
    (dateRangeAux n cur step).Chain' (fun a b : Int => b = a + (step : Int)) := by
  induction n generalizing cur with
  | zero => simp [dateRangeAux]
  | succ n ih =>
    cases n with
    | zero => simp [dateRangeAux]
    | succ m =>
      simp only [dateRangeAux]
      refine List.chain'_cons.2 ⟨rfl, ?_⟩
      exact ih (cur + step)

theorem dateRangeAux_mem {n : Nat} {cur : Int} {step : Nat} {x : Int}
    (hx : x ∈ dateRangeAux n cur step) :
    ∃ i : Nat, i < n ∧ x = cur + (step : Int) * (i : Int) := by
  induction n generalizing cur with
  | zero => simp [dateRangeAux] at hx
  | succ n ih =>
    simp only [dateRangeAux, List.mem_cons] at hx
    rcases hx with h | h
    · exact ⟨0, by omega, by simp [h]⟩
    · obtain ⟨i, hi, hx⟩ := ih h
      refine ⟨i + 1, by omega, ?_⟩
      rw [hx]
      push_cast
      ring

theorem dateRangeAux_getLast (n : Nat) (cur : Int) (step : Nat) :
    (dateRangeAux (n + 1) cur step).getLast? = some (cur + (step : Int) * (n : Int)) := by
  induction n generalizing cur with
  | zero => simp [dateRangeAux]
  | succ m ih =>
    show (cur :: dateRangeAux (m + 1) (cur + step) step).getLast? = _
    rw [show dateRangeAux (m + 1) (cur + step) step =
          (cur + step) :: dateRangeAux m (cur + step + step) step from rfl]
    rw [List.getLast?_cons_cons]
    rw [show (cur + step) :: dateRangeAux m (cur + step + step) step =
          dateRangeAux (m + 1) (cur + step) step from rfl]
    rw [ih (cur + step)]
    congr 1
    push_cast
    ring

theorem dateRangeAux_pairwise (n : Nat) (cur : Int) {step : Nat} (hstep : 1 ≤ step) :
    (dateRangeAux n cur step).Pairwise (· < ·) := by
  rw [← List.chain'_iff_pairwise]
  exact (dateRangeAux_chain n cur step).imp fun a b h => by omega

/-- The calendar is the arithmetic progression with stride `step`. -/
theorem dateRange_chain (lo hi : Int) (step : Nat) :
    (dateRange lo hi step).Chain' (fun a b : Int => b = a + (step : Int)) := by
  rw [dateRange]
  split
  · simp
  · exact dateRangeAux_chain _ _ _

/-- A nonempty calendar starts at its lower bound. -/
theorem dateRange_head (lo hi : Int) (step : Nat) (h : lo ≤ hi) :
    (dateRange lo hi step).head? = some lo := by
  rw [dateRange, if_neg (by omega)]
  rfl

/-- Every calendar point lies between the bounds, inclusive. -/
theorem dateRange_mem {lo hi : Int} {step : Nat} (hstep : 1 ≤ step) {x : Int}
    (hx : x ∈ dateRange lo hi step) : lo ≤ x ∧ x ≤ hi := by
  rw [dateRange] at hx
  by_cases h : hi < lo
  · rw [if_pos h] at hx
    simp at hx
  · rw [if_neg h] at hx
    obtain ⟨i, hi2, hx⟩ := dateRangeAux_mem hx
    have hsi : (0 : Int) ≤ (step : Int) * (i : Int) := by positivity
    have hle : step * i ≤ (hi - lo).toNat := by
      have h1 : i ≤ (hi - lo).toNat / step := by omega
      calc step * i ≤ step * ((hi - lo).toNat / step) := Nat.mul_le_mul_left step h1
        _ = (hi - lo).toNat / step * step := Nat.mul_comm _ _
        _ ≤ (hi - lo).toNat := Nat.div_mul_le_self _ _
    have hle2 : ((step * i : Nat) : Int) ≤ ((hi - lo).toNat : Int) := Int.ofNat_le.2 hle
    have htn : ((hi - lo).toNat : Int) = hi - lo := Int.toNat_of_nonneg (by omega)
    push_cast at hle2
    constructor
    · omega
    · omega

/-- At the default daily stride the calendar ends exactly at the upper bound. -/
theorem dateRange_getLast_daily (lo hi : Int) (h : lo ≤ hi) :
    (dateRange lo hi 1).getLast? = some hi := by
  rw [dateRange, if_neg (by omega)]
  rw [dateRangeAux_getLast]
  congr 1
  have htn : ((hi - lo).toNat : Int) = hi - lo := Int.toNat_of_nonneg (by omega)
  simp only [Nat.div_one]
  omega

/-- Calendar points are strictly increasing (hence pairwise distinct). -/
theorem dateRange_pairwise (lo hi : Int) {step : Nat} (hstep : 1 ≤ step) :
    (dateRange lo hi step).Pairwise (· < ·) := by
  rw [dateRange]
  split
  · simp
  · exact dateRangeAux_pairwise _ _ hstep

/-- Row of the raw frame for one observation. -/
def rawRow (p : Int × ℚ) : List Cell := [Cell.ts p.1, Cell.num p.2]

/-- The prepared row block for one calendar timestamp, before the saturating
columns are appended.  The fill value is already applied. -/
def joinRowsBase (naf : Option ℚ) (rs : List (Int × ℚ)) (t : Int) : List (List Cell) :=
  match rs.filter (fun p => p.1 == t) with
  | [] => [[Cell.ts t, fillCell naf]]
  | ms => ms.map fun p => [Cell.ts t, Cell.num p.2]

theorem joinRowsAt_eq_base (s : MakeDataState) (rs : List (Int × ℚ)) (t : Int) :
    joinRowsAt s rs t = (joinRowsBase s.na_fill rs t).map (· ++ extraCells s) := by
  rw [joinRowsAt, joinRowsBase]
  cases hf : rs.filter (fun p => p.1 == t) with
  | nil => simp
  | cons m ms => simp [List.map_map, Function.comp]

theorem getTsCol_rawFrame (d y : String) (rs : List (Int × ℚ)) :
    getTsCol (rawFrame d y rs) d = some (rs.map Prod.fst) := by
  have hmm : ∀ (l : List (Int × ℚ)),
      tsList (l.map fun p => Cell.ts p.1) = some (l.map Prod.fst) := by
    intro l
    induction l with
    | nil => rfl
    | cons p l ih => simp [tsList, ih, Cell.asTs]
  have hcol : (rawFrame d y rs).col? d = some (rs.map fun p => Cell.ts p.1) := by
    rw [Frame.col?, rawFrame]
    rw [show idxOf [d, y] d = some 0 from by rw [idxOf, if_pos rfl]]
    rw [Option.map_some']
    congr 1
    rw [List.map_map]
    rfl
  rw [getTsCol, hcol]
  exact hmm rs

theorem select_rawFrame (d y : String) (rs : List (Int × ℚ)) (hy2 : y ≠ d) :
    (rawFrame d y rs).select [d, y] = some (rawFrame d y rs) := by
  have h0 : idxOf [d, y] d = some 0 := by rw [idxOf, if_pos rfl]
  have h1 : idxOf [d, y] y = some 1 := by
    rw [idxOf, if_neg (fun h => hy2 h.symm), idxOf, if_pos rfl]
    rfl
  rw [Frame.select]
  rw [show idxList (rawFrame d y rs).cols [d, y] = some [0, 1] from by
    simp [rawFrame, idxList, h0, h1]]
  show some _ = some _
  refine congrArg some ?_
  show Frame.mk [d, y] _ = rawFrame d y rs
  rw [rawFrame]
  refine congrArg (Frame.mk [d, y]) ?_
  rw [List.map_map]
  exact List.map_congr_left fun p _ => rfl

theorem cell_ts_beq (a b : Int) : (Cell.ts a == Cell.ts b) = (a == b) := by
  by_cases h : a = b
  · simp [h]
  · simp [h]

/-- Filtering the raw rows on a timestamp key is filtering the observations. -/
theorem filter_rawRows (rs : List (Int × ℚ)) (t : Int) :
    (rs.map fun p => [Cell.ts p.1, Cell.num p.2]).filter
        (fun rr => rr.getD 0 Cell.na == Cell.ts t)
      = (rs.filter fun p => p.1 == t).map fun p => [Cell.ts p.1, Cell.num p.2] := by
  rw [List.filter_map]
  congr 1
  apply List.filter_congr
  intro p _
  show (Cell.ts p.1 == Cell.ts t) = (p.1 == t)
  exact cell_ts_beq p.1 t

/-- The rows the left merge produces for one calendar timestamp when the raw
timestamp column is itself named `'ds'` (shared key label). -/
theorem mergeA (y' : String) (rs : List (Int × ℚ)) (cal : List Int) :
    leftMerge (Frame.mk ["ds"] (cal.map fun t => [Cell.ts t])) (rawFrame "ds" y' rs) "ds" "ds"
      = some (Frame.mk ["ds", y'] (cal.flatMap (joinRowsBase none rs))) := by
  have hidx : idxOf ["ds", y'] "ds" = some 0 := by rw [idxOf, if_pos rfl]
  rw [leftMerge, rawFrame]
  rw [show idxOf ["ds"] "ds" = some 0 from by rw [idxOf, if_pos rfl]]
  rw [hidx]
  simp only [Option.some_bind, if_pos rfl]
  refine congrArg some ?_
  refine congrArg₂ Frame.mk ?_ ?_
  · simp
  · rw [List.flatMap_map]
    apply List.flatMap_congr
    intro t _
    show (match (rs.map fun p => [Cell.ts p.1, Cell.num p.2]).filter
            (fun rr => rr.getD 0 Cell.na == ([Cell.ts t].getD 0 Cell.na)) with
          | [] => [[Cell.ts t] ++ List.replicate (["ds", y'].length - 1) Cell.na]
          | ms => ms.map fun rr => [Cell.ts t] ++ rr.eraseIdx 0)
        = joinRowsBase none rs t
    rw [show ([Cell.ts t].getD 0 Cell.na) = Cell.ts t from rfl]
    rw [filter_rawRows]
    rw [joinRowsBase]
    cases hf : rs.filter (fun p => p.1 == t) with
    | nil => rfl
    | cons m ms =>
      simp only [List.map_cons, List.map_map]
      refine congrArg₂ List.cons rfl ?_
      apply List.map_congr_left
      intro p _
      rfl

/-- The row block the left merge produces for one calendar timestamp when the
raw timestamp column has its own (non-`'ds'`) name: both key columns are kept. -/
def mergeRowsB (rs : List (Int × ℚ)) (t : Int) : List (List Cell) :=
  match rs.filter (fun p => p.1 == t) with
  | [] => [[Cell.ts t, Cell.na, Cell.na]]
  | ms => ms.map fun p => [Cell.ts t, Cell.ts p.1, Cell.num p.2]

theorem mergeB (d y' : String) (hds : d ≠ "ds") (hy1 : y' ≠ "ds")
    (rs : List (Int × ℚ)) (cal : List Int) :
    leftMerge (Frame.mk ["ds"] (cal.map fun t => [Cell.ts t])) (rawFrame d y' rs) "ds" d
      = some (Frame.mk ["ds", d, y'] (cal.flatMap (mergeRowsB rs))) := by
  have hidx : idxOf [d, y'] d = some 0 := by rw [idxOf, if_pos rfl]
  rw [leftMerge, rawFrame]
  rw [show idxOf ["ds"] "ds" = some 0 from by rw [idxOf, if_pos rfl]]
  rw [hidx]
  simp only [Option.bind_eq_bind, Option.some_bind]
  rw [if_neg (fun h => hds h.symm)]
  refine congrArg some ?_
  refine congrArg₂ Frame.mk ?_ ?_
  · have hov : (["ds"].filter fun n => [d, y'].contains n) = [] := by
      simp [Ne.symm hds, Ne.symm hy1]
    rw [hov]
    simp
  · rw [List.flatMap_map]
    apply List.flatMap_congr
    intro t _
    show (match (rs.map fun p => [Cell.ts p.1, Cell.num p.2]).filter
            (fun rr => rr.getD 0 Cell.na == ([Cell.ts t].getD 0 Cell.na)) with
          | [] => [[Cell.ts t] ++ List.replicate [d, y'].length Cell.na]
          | ms => ms.map fun rr => [Cell.ts t] ++ rr)
        = mergeRowsB rs t
    rw [show ([Cell.ts t].getD 0 Cell.na) = Cell.ts t from rfl]
    rw [filter_rawRows]
    rw [mergeRowsB]
    cases hf : rs.filter (fun p => p.1 == t) with
    | nil => rfl
    | cons m ms =>
      simp only [List.map_cons, List.map_map]
      refine congrArg₂ List.cons rfl ?_
      apply List.map_congr_left
      intro p _
      rfl

theorem dropRow3 (n1 n2 n3 : String) (c1 c2 c3 : Cell) (d : String)
    (h1 : (n1 != d) = true) (h2 : (n2 != d) = false) (h3 : (n3 != d) = true) :
    (([n1, n2, n3].zip [c1, c2, c3]).filter (fun p => p.1 != d)).map (·.2) = [c1, c3] := by
  show ([(n1, c1), (n2, c2), (n3, c3)].filter (fun p => p.1 != d)).map (·.2) = [c1, c3]
  simp only [List.filter_cons, List.filter_nil]
  rw [h1, h2, h3]
  simp

/-- Dropping the raw timestamp column from the merged frame leaves the
canonical calendar column and the value column. -/
theorem dropColB (d y' : String) (hds : d ≠ "ds") (hy2 : y' ≠ d)
    (rs : List (Int × ℚ)) (cal : List Int) :
    (Frame.mk ["ds", d, y'] (cal.flatMap (mergeRowsB rs))).dropCol d
      = Frame.mk ["ds", y'] (cal.flatMap (joinRowsBase none rs)) := by
  rw [Frame.dropCol]
  have hb1 : ("ds" != d) = true := bne_iff_ne.2 fun h => hds h.symm
  have hb2 : (y' != d) = true := bne_iff_ne.2 hy2
  refine congrArg₂ Frame.mk ?_ ?_
  · simp [List.filter, hb1, hb2]
  · rw [List.map_flatMap]
    apply List.flatMap_congr
    intro t _
    rw [mergeRowsB, joinRowsBase]
    cases hf : rs.filter (fun p => p.1 == t) with
    | nil =>
      simp only [List.map_cons, List.map_nil]
      show [((["ds", d, y'].zip [Cell.ts t, Cell.na, Cell.na]).filter
          (fun p => p.1 != d)).map (·.2)] = [[Cell.ts t, fillCell none]]
      rw [dropRow3 _ _ _ _ _ _ _ hb1 (by simp) hb2]
      rfl
    | cons m ms =>
      simp only [List.map_cons, List.map_map]
      refine congrArg₂ List.cons ?_ ?_
      · show ((["ds", d, y'].zip [Cell.ts t, Cell.ts m.1, Cell.num m.2]).filter
            (fun p => p.1 != d)).map (·.2) = [Cell.ts t, Cell.num m.2]
        exact dropRow3 _ _ _ _ _ _ _ hb1 (by simp) hb2
      · apply List.map_congr_left
        intro p _
        show ((["ds", d, y'].zip [Cell.ts t, Cell.ts p.1, Cell.num p.2]).filter
            (fun p => p.1 != d)).map (·.2) = [Cell.ts t, Cell.num p.2]
        exact dropRow3 _ _ _ _ _ _ _ hb1 (by simp) hb2

/-- Renaming the value column to `'y'` canonicalises the prepared columns. -/
theorem renameColY (y' : String) (hy1 : y' ≠ "ds") (R : List (List Cell)) :
    (Frame.mk ["ds", y'] R).renameCol y' "y" = Frame.mk ["ds", "y"] R := by
  rw [Frame.renameCol]
  refine congrArg₂ Frame.mk ?_ rfl
  simp [Ne.symm hy1]

/-- Applying the configured fill value replaces exactly the missing markers of
the joined rows. -/
theorem fillFrame (s : MakeDataState) (rs : List (Int × ℚ)) (cal : List Int) :
    applyNaFill s.na_fill (Frame.mk ["ds", "y"] (cal.flatMap (joinRowsBase none rs)))
    = Frame.mk ["ds", "y"] (cal.flatMap (joinRowsBase s.na_fill rs)) := by
  cases hnf : s.na_fill with
  | none => rfl
  | some q =>
    simp only [applyNaFill, Frame.fillna]
    refine congrArg₂ Frame.mk rfl ?_
    rw [List.map_flatMap]
    apply List.flatMap_congr
    intro t _
    rw [joinRowsBase, joinRowsBase]
    cases hf : rs.filter (fun p => p.1 == t) with
    | nil => simp [fillCell]
    | cons m ms =>
      simp only [List.map_cons, List.map_map]
      refine congrArg₂ List.cons (by simp) ?_
      apply List.map_congr_left
      intro p _
      simp

/-- Assigning a scalar to a fresh column name appends a constant column. -/
theorem withConst_append (cols : List String) (R : List (List Cell)) (name : String)
    (v : Cell) (h : cols.contains name = false) :
    (Frame.mk cols R).withConst name v = Frame.mk (cols ++ [name]) (R.map (· ++ [v])) := by
  rw [Frame.withConst]
  rw [show (Frame.mk cols R).cols.contains name = false from h]
  simp

/-- Attaching the configured saturating bounds appends the constant
`floor`/`cap` columns and cells. -/
theorem satFrame (s : MakeDataState) (R : List (List Cell)) :
    applySat "cap" s.saturating_max (applySat "floor" s.saturating_min (Frame.mk ["ds", "y"] R))
    = Frame.mk (["ds", "y"] ++ extraCols s) (R.map (· ++ extraCells s)) := by
  cases hmin : s.saturating_min with
  | none =>
    cases hmax : s.saturating_max with
    | none => simp [applySat, extraCols, extraCells, hmin, hmax]
    | some b =>
      simp only [applySat, extraCols, extraCells, hmin, hmax]
      rw [withConst_append _ _ _ _ (by rfl)]
      simp
  | some a =>
    cases hmax : s.saturating_max with
    | none =>
      simp only [applySat, extraCols, extraCells, hmin, hmax]
      rw [withConst_append _ _ _ _ (by rfl)]
      simp
    | some b =>
      simp only [applySat, extraCols, extraCells, hmin, hmax]
      rw [withConst_append _ _ _ _ (by rfl)]
      rw [withConst_append _ _ _ _ (by rfl)]
      simp [List.map_map, Function.comp, List.append_assoc]

/-- The prepared rows are the fill-applied joined rows with the saturating
cells appended. -/
theorem preparedRows_eq (s : MakeDataState) (rs : List (Int × ℚ)) (cal : List Int) :
    preparedRows s rs cal
      = (cal.flatMap (joinRowsBase s.na_fill rs)).map (· ++ extraCells s) := by
  rw [preparedRows, List.map_flatMap]
  exact List.flatMap_congr fun t _ => joinRowsAt_eq_base s rs t

/-- Structure theorem for `make_data` on a raw series whose configured value
column is named neither `'ds'` nor like the timestamp column: the prepared
frame has the canonical columns followed by the configured saturating columns,
and one row block per calendar timestamp. -/
theorem make_data_rawFrame (s : MakeDataState) (rs : List (Int × ℚ)) {lo hi : Int}
    {step : Nat} (hy1 : s.y ≠ "ds") (hy2 : s.y ≠ s.ds)
    (hlo : resolveBound s.min_train_date (seriesMin (rs.map Prod.fst)) = some lo)
    (hhi : resolveBound s.max_train_date (seriesMax (rs.map Prod.fst)) = some hi)
    (hstep : freqStep s.ts_frequency = some step) :
    make_data s (rawFrame s.ds s.y rs) =
      some ({ s with min_train_date := some lo, max_train_date := some hi },
            Frame.mk (["ds", "y"] ++ extraCols s)
              (preparedRows s rs (dateRange lo hi step))) := by
  rw [make_data]
  rw [getTsCol_rawFrame]
  simp only [Option.bind_eq_bind, Option.some_bind]
  rw [hlo]
  simp only [Option.some_bind]
  rw [hhi]
  simp only [Option.some_bind]
  rw [hstep]
  simp only [Option.some_bind]
  rw [select_rawFrame s.ds s.y rs hy2]
  simp only [Option.some_bind]
  rw [preparedRows_eq]
  by_cases hds : s.ds = "ds"
  · rw [hds]
    rw [mergeA s.y rs (dateRange lo hi step)]
    simp only [Option.some_bind]
    rw [if_neg (fun hc => hc rfl)]
    rw [renameColY s.y hy1]
    rw [fillFrame]
    rw [satFrame]
  · rw [mergeB s.ds s.y hds hy1 rs (dateRange lo hi step)]
    simp only [Option.some_bind]
    rw [if_pos hds]
    rw [dropColB s.ds s.y hds hy2 rs (dateRange lo hi step)]
    rw [renameColY s.y hy1]
    rw [fillFrame]
    rw [satFrame]

/-- Inversion for a successful `Option` bind. -/
theorem optBind_ok {a b : Type} {x : Option a} {f : a → Option b} {v : b}
    (h : x >>= f = some v) : ∃ u, x = some u ∧ f u = some v := by
  cases x with
  | none => exact absurd h (by simp)
  | some u => exact ⟨u, rfl, h⟩

/-- A successful `make_data` run determines the resolved bounds, the stride,
the updated state and the prepared frame. -/
theorem make_data_rawFrame_inv (s : MakeDataState) (rs : List (Int × ℚ))
    (s' : MakeDataState) (f : Frame) (hy1 : s.y ≠ "ds") (hy2 : s.y ≠ s.ds)
    (h : make_data s (rawFrame s.ds s.y rs) = some (s', f)) :
    ∃ (lo hi : Int) (step : Nat),
      resolveBound s.min_train_date (seriesMin (rs.map Prod.fst)) = some lo ∧
      resolveBound s.max_train_date (seriesMax (rs.map Prod.fst)) = some hi ∧
      freqStep s.ts_frequency = some step ∧
      s' = { s with min_train_date := some lo, max_train_date := some hi } ∧
      f = Frame.mk (["ds", "y"] ++ extraCols s)
            (preparedRows s rs (dateRange lo hi step)) := by
  have h0 := h
  rw [make_data] at h0
  obtain ⟨ts, hts, h0⟩ := optBind_ok h0
  rw [getTsCol_rawFrame] at hts
  injection hts with hts
  subst hts
  obtain ⟨lo, hlo, h0⟩ := optBind_ok h0
  obtain ⟨hi, hhi, h0⟩ := optBind_ok h0
  obtain ⟨step, hstep, h0⟩ := optBind_ok h0
  refine ⟨lo, hi, step, hlo, hhi, hstep, ?_⟩
  rw [make_data_rawFrame s rs hy1 hy2 hlo hhi hstep] at h
  injection h with h
  exact ⟨congrArg Prod.fst h.symm, congrArg Prod.snd h.symm⟩

/-- C5: a successful data preparation resolves `min_train_date` and
`max_train_date` to the configured values when present, derives them from the
min/max of the parsed raw timestamps when unset, and writes the results back
into the state, so that afterwards both are always set. -/
theorem make_data_train_dates (s : MakeDataState) (data : Frame)
    (s' : MakeDataState) (f : Frame) (ts : List Int)
    (h : make_data s data = some (s', f)) (hts : getTsCol data s.ds = some ts) :
    s'.min_train_date = resolveBound s.min_train_date (seriesMin ts) ∧
    s'.max_train_date = resolveBound s.max_train_date (seriesMax ts) ∧
    (∀ m, s.min_train_date = some m → s'.min_train_date = some m) ∧
    (∀ m, s.max_train_date = some m → s'.max_train_date = some m) ∧
    s'.min_train_date.isSome = true ∧ s'.max_train_date.isSome = true := by
  rw [make_data] at h
  obtain ⟨ts2, hts2, h⟩ := optBind_ok h
  have : ts2 = ts := by
    have h3 := hts.symm.trans hts2
    injection h3 with h3
    exact h3.symm
  subst this
  obtain ⟨lo, hlo, h⟩ := optBind_ok h
  obtain ⟨hi, hhi, h⟩ := optBind_ok h
  obtain ⟨step, hstep, h⟩ := optBind_ok h
  obtain ⟨sub, hsub, h⟩ := optBind_ok h
  obtain ⟨mg, hmg, h⟩ := optBind_ok h
  injection h with h
  have hs' : s' = { s with min_train_date := some lo, max_train_date := some hi } :=
    (congrArg Prod.fst h).symm
  subst hs'
  refine ⟨hlo.symm, hhi.symm, ?_, ?_, rfl, rfl⟩
  · intro m hm
    rw [hm] at hlo
    simp only [resolveBound] at hlo
    injection hlo with h2
    exact congrArg some h2.symm
  · intro m hm
    rw [hm] at hhi
    simp only [resolveBound] at hhi
    injection hhi with h2
    exact congrArg some h2.symm

/-- Every modelled frequency stride is positive. -/
theorem freqStep_pos {fs : String} {step : Nat} (h : freqStep fs = some step) :
    1 ≤ step := by
  rw [freqStep] at h
  split at h
  · injection h with h
    omega
  · split at h
    · split at h
      · split at h
        · exact absurd h (by simp)
        · injection h with h
          omega
      · exact absurd h (by simp)
    · exact absurd h (by simp)

/-- With pairwise-distinct raw timestamps, at most one observation matches a
calendar slot. -/
theorem filter_single_of_nodup {rs : List (Int × ℚ)}
    (hnd : (rs.map Prod.fst).Nodup) (t : Int) :
    rs.filter (fun p => p.1 == t) = [] ∨ ∃ p, rs.filter (fun p => p.1 == t) = [p] := by
  induction rs with
  | nil => exact Or.inl rfl
  | cons r rs ih =>
    simp only [List.map_cons, List.nodup_cons] at hnd
    obtain ⟨hnm, hnd'⟩ := hnd
    rw [List.filter_cons]
    by_cases hr : r.1 = t
    · rw [if_pos (by simp [hr])]
      refine Or.inr ⟨r, ?_⟩
      have hnil : rs.filter (fun p => p.1 == t) = [] := by
        rw [List.filter_eq_nil_iff]
        intro p hp
        simp only [beq_iff_eq]
        intro hpt
        exact hnm (hr ▸ hpt ▸ List.mem_map_of_mem Prod.fst hp)
      rw [hnil]
    · rw [if_neg (by simp [hr])]
      exact ih hnd'

/-- With distinct raw timestamps, each calendar slot contributes exactly one
prepared row, whose `ds` cell is that timestamp. -/
theorem joinRowsAt_ds (s : MakeDataState) (rs : List (Int × ℚ))
    (hnd : (rs.map Prod.fst).Nodup) (t : Int) :
    (joinRowsAt s rs t).map (fun r => r.getD 0 Cell.na) = [Cell.ts t] := by
  rw [joinRowsAt]
  rcases filter_single_of_nodup hnd t with hf | ⟨p, hf⟩
  · rw [hf]
    rfl
  · rw [hf]
    rfl

/-- With distinct raw timestamps, the `ds` cells of the prepared rows are
exactly the calendar. -/
theorem preparedRows_dsCol (s : MakeDataState) (rs : List (Int × ℚ))
    (cal : List Int) (hnd : (rs.map Prod.fst).Nodup) :
    (preparedRows s rs cal).map (fun r => r.getD 0 Cell.na) = cal.map Cell.ts := by
  rw [preparedRows, List.map_flatMap]
  rw [List.flatMap_congr fun t _ => joinRowsAt_ds s rs hnd t]
  exact (List.map_eq_flatMap Cell.ts cal).symm

/-- C1 (amended): for a configuration and raw series for which data
preparation succeeds, PROVIDED the raw timestamps are pairwise distinct (and
the configured value-column name collides with neither `'ds'` nor the
timestamp column), the prepared `'ds'` column is exactly the calendar
`dateRange lo hi step` for the resolved bounds: an arithmetic progression at
the configured stride — strictly increasing and gap-free — starting at
`min_train_date`, staying within `[min_train_date, max_train_date]`, and
ending exactly at `max_train_date` at the default daily stride.  (With
duplicate raw timestamps the matching calendar row is duplicated; see the
counterexample.) -/
theorem prepared_calendar (s : MakeDataState) (rs : List (Int × ℚ))
    (s' : MakeDataState) (f : Frame) {lo hi : Int} {step : Nat}
    (hy1 : s.y ≠ "ds") (hy2 : s.y ≠ s.ds) (hnd : (rs.map Prod.fst).Nodup)
    (h : make_data s (rawFrame s.ds s.y rs) = some (s', f))
    (hlo : s'.min_train_date = some lo) (hhi : s'.max_train_date = some hi)
    (hstep : freqStep s.ts_frequency = some step) :
    f.col? "ds" = some ((dateRange lo hi step).map Cell.ts) ∧
    (dateRange lo hi step).Chain' (fun a b : Int => b = a + (step : Int)) ∧
    (dateRange lo hi step).Pairwise (· < ·) ∧
    (lo ≤ hi → (dateRange lo hi step).head? = some lo) ∧
    (∀ x ∈ dateRange lo hi step, lo ≤ x ∧ x ≤ hi) ∧
    (step = 1 → lo ≤ hi → (dateRange lo hi step).getLast? = some hi) := by
  obtain ⟨lo2, hi2, step2, hlo2, hhi2, hstep2, hs', hf⟩ :=
    make_data_rawFrame_inv s rs s' f hy1 hy2 h
  subst hs'
  have e1 : lo2 = lo := by injection hlo
  have e2 : hi2 = hi := by injection hhi
  have e3 : step2 = step := by
    have h4 := hstep2.symm.trans hstep
    injection h4
  rw [e1, e2, e3] at hf
  subst hf
  have hpos := freqStep_pos hstep
  refine ⟨?_, dateRange_chain lo hi step, dateRange_pairwise lo hi hpos,
    fun hle => dateRange_head lo hi step hle,
    fun x hx => dateRange_mem hpos hx,
    fun h1 hle => by rw [h1]; exact dateRange_getLast_daily lo hi hle⟩
  rw [Frame.col?]
  rw [show idxOf (["ds", "y"] ++ extraCols s) "ds" = some 0 from rfl]
  rw [Option.map_some']
  exact congrArg some (preparedRows_dsCol s rs _ hnd)

/-- The pipeline state of the C1 scenarios: default column names, daily
frequency, train-date bounds unset, no fill, no saturating bounds. -/
def c1s : MakeDataState :=
  ⟨"ds", "y", "D", none, none, none, none, none⟩

/-- A raw series with a duplicated timestamp. -/
def c1rs : List (Int × ℚ) := [(1, 5), (1, 6)]

/-- C1 counterexample: with a raw series carrying two observations for the
same timestamp (day 1), preparation succeeds but the prepared `'ds'` column is
`[1, 1]` — the matched calendar row is duplicated by the left join, so the
timestamp column is neither strictly increasing nor equal to the daily
calendar `[1]` of its resolved bounds. -/
theorem prepared_calendar_duplicate_raw :
    ((make_data c1s (rawFrame "ds" "y" c1rs)).map fun p => p.2.col? "ds")
      = some (some [Cell.ts 1, Cell.ts 1]) ∧
    ¬ ([1, 1] : List Int).Pairwise (· < ·) ∧
    [Cell.ts 1, Cell.ts 1] ≠ (dateRange 1 1 1).map Cell.ts := by
  refine ⟨by rfl, ?_, by decide⟩
  intro hp
  exact absurd ((List.pairwise_cons.1 hp).1 1 (by simp)) (lt_irrefl 1)

/-- A ten-day raw series, days 1 through 10 (standing for
2020-01-01 … 2020-01-10). -/
def c1wrs : List (Int × ℚ) :=
  [(1, 1), (2, 2), (3, 3), (4, 4), (5, 5), (6, 6), (7, 7), (8, 8), (9, 9), (10, 10)]

/-- The state after preparing the ten-day series. -/
def c1wout : MakeDataState :=
  ⟨"ds", "y", "D", some 1, some 10, none, none, none⟩

/-- The prepared frame of the ten-day series. -/
def c1wf : Frame :=
  ⟨["ds", "y"],
   [[Cell.ts 1, Cell.num 1], [Cell.ts 2, Cell.num 2], [Cell.ts 3, Cell.num 3],
    [Cell.ts 4, Cell.num 4], [Cell.ts 5, Cell.num 5], [Cell.ts 6, Cell.num 6],
    [Cell.ts 7, Cell.num 7], [Cell.ts 8, Cell.num 8], [Cell.ts 9, Cell.num 9],
    [Cell.ts 10, Cell.num 10]]⟩

/-- Witness for C1 at the spec's concrete scenario: min/max train dates unset
and raw timestamps spanning days 1..10 at daily frequency give a prepared
calendar of exactly 10 gap-free daily rows spanning that range. -/
theorem prepared_calendar_witness :
    c1wf.col? "ds" = some ([1, 2, 3, 4, 5, 6, 7, 8, 9, 10].map Cell.ts) ∧
    dateRange 1 10 1 = [1, 2, 3, 4, 5, 6, 7, 8, 9, 10] ∧
    ([1, 2, 3, 4, 5, 6, 7, 8, 9, 10] : List Int).length = 10 := by
  have h : make_data c1s (rawFrame "ds" "y" c1wrs) = some (c1wout, c1wf) := by rfl
  have hc := prepared_calendar c1s c1wrs c1wout c1wf (by decide) (by decide)
    (by decide) h (by rfl) (by rfl) (by rfl)
  refine ⟨hc.1.trans (by rfl), by rfl, by rfl⟩

/-- The raw series of the three-day scenarios: observations on days 1 and 3,
nothing on day 2. -/
def c5rs : List (Int × ℚ) := [(1, 5), (3, 7)]

/-- The state after preparing `c5rs` with bounds unset: both train dates are
derived and written back. -/
def c5out : MakeDataState := ⟨"ds", "y", "D", some 1, some 3, none, none, none⟩

/-- The prepared frame of `c5rs` without a fill value: day 2 persists with the
missing marker. -/
def c5f : Frame :=
  ⟨["ds", "y"], [[Cell.ts 1, Cell.num 5], [Cell.ts 2, Cell.na], [Cell.ts 3, Cell.num 7]]⟩

/-- Witness for C5: preparing the three-day series with bounds unset derives
`min_train_date = 1` and `max_train_date = 3` and stores both. -/
theorem make_data_train_dates_witness :
    make_data c1s (rawFrame "ds" "y" c5rs) = some (c5out, c5f) ∧
    c5out.min_train_date = some 1 ∧ c5out.max_train_date = some 3 ∧
    c5out.min_train_date.isSome = true ∧ c5out.max_train_date.isSome = true := by
  have h : make_data c1s (rawFrame "ds" "y" c5rs) = some (c5out, c5f) := by rfl
  have hts : getTsCol (rawFrame "ds" "y" c5rs) c1s.ds = some [1, 3] := by rfl
  have hd := make_data_train_dates c1s (rawFrame "ds" "y" c5rs) c5out c5f [1, 3] h hts
  exact ⟨h, hd.1.trans (by rfl), hd.2.1.trans (by rfl), hd.2.2.2.2.1, hd.2.2.2.2.2⟩

/-- Every row a calendar slot contributes starts with that slot's timestamp. -/
theorem joinRowsAt_heads (s : MakeDataState) (rs : List (Int × ℚ)) (t : Int) :
    ∀ r ∈ joinRowsAt s rs t, r.getD 0 Cell.na = Cell.ts t := by
  intro r hr
  rw [joinRowsAt] at hr
  cases hmatch : rs.filter (fun p => p.1 == t) with
  | nil =>
    rw [hmatch] at hr
    have := List.mem_singleton.1 hr
    rw [this]
    rfl
  | cons m ms =>
    rw [hmatch] at hr
    obtain ⟨p, hp, hpr⟩ := List.mem_map.1 hr
    rw [← hpr]
    rfl

/-- No prepared row of a calendar not containing `t` carries timestamp `t`. -/
theorem filter_prepared_not_mem (s : MakeDataState) (rs : List (Int × ℚ))
    (cal : List Int) (t : Int) (hnm : t ∉ cal) :
    (preparedRows s rs cal).filter (fun r => r.getD 0 Cell.na == Cell.ts t) = [] := by
  revert hnm
  induction cal with
  | nil => intro _; rfl
  | cons c cal ih =>
    intro hnm
    rw [preparedRows, List.flatMap_cons, List.filter_append, ← preparedRows]
    have h1 : (joinRowsAt s rs c).filter (fun r => r.getD 0 Cell.na == Cell.ts t) = [] := by
      rw [List.filter_eq_nil_iff]
      intro r hr
      rw [joinRowsAt_heads s rs c r hr]
      simp only [cell_ts_beq]
      simp only [beq_iff_eq]
      exact fun he => hnm (List.mem_cons.2 (Or.inl he.symm))
    rw [h1, ih (fun hm => hnm (List.mem_cons.2 (Or.inr hm))), List.nil_append]

/-- In a duplicate-free calendar containing `t`, the prepared rows carrying
timestamp `t` are exactly the block `t` contributed. -/
theorem filter_prepared_mem (s : MakeDataState) (rs : List (Int × ℚ))
    (cal : List Int) (t : Int) (hnd : cal.Nodup) (hm : t ∈ cal) :
    (preparedRows s rs cal).filter (fun r => r.getD 0 Cell.na == Cell.ts t)
      = joinRowsAt s rs t := by
  revert hnd hm
  induction cal with
  | nil => intro _ hm; exact absurd hm (List.not_mem_nil t)
  | cons c cal ih =>
    intro hnd hm
    rw [preparedRows, List.flatMap_cons, List.filter_append, ← preparedRows]
    rcases List.mem_cons.1 hm with he | hm'
    · subst he
      have h1 : (joinRowsAt s rs t).filter
          (fun r => r.getD 0 Cell.na == Cell.ts t) = joinRowsAt s rs t := by
        rw [List.filter_eq_self]
        intro r hr
        rw [joinRowsAt_heads s rs t r hr]
        simp
      have h2 := filter_prepared_not_mem s rs cal t (List.nodup_cons.1 hnd).1
      rw [h1, h2, List.append_nil]
    · have hne : c ≠ t := fun he => (List.nodup_cons.1 hnd).1 (he ▸ hm')
      have h1 : (joinRowsAt s rs c).filter
          (fun r => r.getD 0 Cell.na == Cell.ts t) = [] := by
        rw [List.filter_eq_nil_iff]
        intro r hr
        rw [joinRowsAt_heads s rs c r hr]
        simp only [cell_ts_beq, beq_iff_eq]
        exact hne
      rw [h1, ih (List.nodup_cons.1 hnd).2 hm', List.nil_append]

/-- C6: for a calendar slot with no matching raw observation, the prepared
series keeps exactly one row at that slot; its value cell is the configured
fill value when `na_fill` is set and the missing marker when it is unset —
the row persists either way. -/
theorem na_fill_behaviour (s : MakeDataState) (rs : List (Int × ℚ))
    (s' : MakeDataState) (f : Frame) {lo hi : Int} {step : Nat} {t : Int}
    (hy1 : s.y ≠ "ds") (hy2 : s.y ≠ s.ds)
    (h : make_data s (rawFrame s.ds s.y rs) = some (s', f))
    (hlo : s'.min_train_date = some lo) (hhi : s'.max_train_date = some hi)
    (hstep : freqStep s.ts_frequency = some step)
    (ht : t ∈ dateRange lo hi step) (hnomatch : ∀ p ∈ rs, p.1 ≠ t) :
    f.rows.filter (fun r => r.getD 0 Cell.na == Cell.ts t)
      = [[Cell.ts t, fillCell s.na_fill] ++ extraCells s] := by
  obtain ⟨lo2, hi2, step2, hlo2, hhi2, hstep2, hs', hf⟩ :=
    make_data_rawFrame_inv s rs s' f hy1 hy2 h
  subst hs'
  have e1 : lo2 = lo := by injection hlo
  have e2 : hi2 = hi := by injection hhi
  have e3 : step2 = step := by
    have h4 := hstep2.symm.trans hstep
    injection h4
  rw [e1, e2, e3] at hf
  subst hf
  show (preparedRows s rs (dateRange lo hi step)).filter
      (fun r => r.getD 0 Cell.na == Cell.ts t) = _
  have hnd : (dateRange lo hi step).Nodup :=
    (dateRange_pairwise lo hi (freqStep_pos hstep)).imp fun hab => ne_of_lt hab
  rw [filter_prepared_mem s rs _ t hnd ht]
  rw [joinRowsAt]
  rw [show rs.filter (fun p => p.1 == t) = [] from
    List.filter_eq_nil_iff.2 (by intro p hp; simpa using hnomatch p hp)]

/-- Every prepared row is a two-cell core followed by the saturating cells. -/
theorem preparedRows_shape (s : MakeDataState) (rs : List (Int × ℚ))
    (cal : List Int) : ∀ r ∈ preparedRows s rs cal,
    ∃ a b, r = [a, b] ++ extraCells s := by
  intro r hr
  rw [preparedRows] at hr
  obtain ⟨t, ht, hrt⟩ := List.mem_flatMap.1 hr
  rw [joinRowsAt] at hrt
  cases hmatch : rs.filter (fun p => p.1 == t) with
  | nil =>
    rw [hmatch] at hrt
    exact ⟨Cell.ts t, fillCell s.na_fill, List.mem_singleton.1 hrt⟩
  | cons m ms =>
    rw [hmatch] at hrt
    obtain ⟨p, hp, hpr⟩ := List.mem_map.1 hrt
    exact ⟨Cell.ts t, Cell.num p.2, hpr.symm⟩

/-- Reading a column at a position where every prepared row carries the same
constant yields that constant on every row. -/
theorem preparedRows_constCol (s : MakeDataState) (rs : List (Int × ℚ))
    (cal : List Int) (k : Nat) (c : Cell)
    (hcell : ∀ a b, ([a, b] ++ extraCells s).getD k Cell.na = c) :
    (preparedRows s rs cal).map (fun r => r.getD k Cell.na)
      = List.replicate (preparedRows s rs cal).length c := by
  have h1 : (preparedRows s rs cal).map (fun r => r.getD k Cell.na)
      = (preparedRows s rs cal).map (fun _ => c) := by
    apply List.map_congr_left
    intro r hr
    obtain ⟨a, b, hab⟩ := preparedRows_shape s rs cal r hr
    rw [hab]
    exact hcell a b
  rw [h1]
  exact List.map_const' _ c

/-- C7: when a saturating bound is configured, every row of the prepared
series carries the corresponding constant column (`floor` for the minimum,
`cap` for the maximum); when a bound is unset, that column is not attached. -/
theorem saturating_bounds_columns (s : MakeDataState) (rs : List (Int × ℚ))
    (s' : MakeDataState) (f : Frame)
    (hy1 : s.y ≠ "ds") (hy2 : s.y ≠ s.ds)
    (h : make_data s (rawFrame s.ds s.y rs) = some (s', f)) :
    (∀ q, s.saturating_min = some q →
      f.col? "floor" = some (List.replicate f.rows.length (Cell.num q))) ∧
    (s.saturating_min = none → "floor" ∉ f.cols) ∧
    (∀ q, s.saturating_max = some q →
      f.col? "cap" = some (List.replicate f.rows.length (Cell.num q))) ∧
    (s.saturating_max = none → "cap" ∉ f.cols) := by
  obtain ⟨lo, hi, step, hlo, hhi, hstep, hs', hf⟩ :=
    make_data_rawFrame_inv s rs s' f hy1 hy2 h
  subst hf
  refine ⟨?_, ?_, ?_, ?_⟩
  · intro q hq
    cases hmax : s.saturating_max with
    | none =>
      rw [Frame.col?]
      rw [show idxOf (["ds", "y"] ++ extraCols s) "floor" = some 2 from by
        simp only [extraCols, hq, hmax]
        rfl]
      rw [Option.map_some']
      refine congrArg some ?_
      apply preparedRows_constCol
      intro a b
      simp only [extraCells, hq, hmax]
      rfl
    | some b =>
      rw [Frame.col?]
      rw [show idxOf (["ds", "y"] ++ extraCols s) "floor" = some 2 from by
        simp only [extraCols, hq, hmax]
        rfl]
      rw [Option.map_some']
      refine congrArg some ?_
      apply preparedRows_constCol
      intro a b2
      simp only [extraCells, hq, hmax]
      rfl
  · intro hq
    cases hmax : s.saturating_max with
    | none => simp [extraCols, hq, hmax]
    | some b => simp [extraCols, hq, hmax]
  · intro q hq
    cases hmin : s.saturating_min with
    | none =>
      rw [Frame.col?]
      rw [show idxOf (["ds", "y"] ++ extraCols s) "cap" = some 2 from by
        simp only [extraCols, hq, hmin]
        rfl]
      rw [Option.map_some']
      refine congrArg some ?_
      apply preparedRows_constCol
      intro a b
      simp only [extraCells, hq, hmin]
      rfl
    | some a =>
      rw [Frame.col?]
      rw [show idxOf (["ds", "y"] ++ extraCols s) "cap" = some 3 from by
        simp only [extraCols, hq, hmin]
        rfl]
      rw [Option.map_some']
      refine congrArg some ?_
      apply preparedRows_constCol
      intro a2 b2
      simp only [extraCells, hq, hmin]
      rfl
  · intro hq
    cases hmin : s.saturating_min with
    | none => simp [extraCols, hq, hmin]
    | some a => simp [extraCols, hq, hmin]

/-- The three-day state with `na_fill = 0`. -/
def c6s : MakeDataState := ⟨"ds", "y", "D", none, none, some 0, none, none⟩

/-- The state after preparing `c5rs` under `c6s`. -/
def c6out : MakeDataState := ⟨"ds", "y", "D", some 1, some 3, some 0, none, none⟩

/-- The prepared frame under `na_fill = 0`: day 2 holds `0`. -/
def c6f : Frame :=
  ⟨["ds", "y"], [[Cell.ts 1, Cell.num 5], [Cell.ts 2, Cell.num 0], [Cell.ts 3, Cell.num 7]]⟩

/-- Witness for C6 at the spec's scenario: the raw series misses day 2; with
`na_fill = 0` the prepared series holds `0` there, and with `na_fill` unset
the row persists with the missing marker. -/
theorem na_fill_behaviour_witness :
    c6f.rows.filter (fun r => r.getD 0 Cell.na == Cell.ts 2)
        = [[Cell.ts 2, Cell.num 0]] ∧
    c5f.rows.filter (fun r => r.getD 0 Cell.na == Cell.ts 2)
        = [[Cell.ts 2, Cell.na]] := by
  have h1 : make_data c6s (rawFrame "ds" "y" c5rs) = some (c6out, c6f) := by rfl
  have h2 : make_data c1s (rawFrame "ds" "y" c5rs) = some (c5out, c5f) := by rfl
  have w1 := @na_fill_behaviour c6s c5rs c6out c6f 1 3 1 2 (by decide) (by decide) h1
    (by rfl) (by rfl) (by rfl) (by decide) (by decide)
  have w2 := @na_fill_behaviour c1s c5rs c5out c5f 1 3 1 2 (by decide) (by decide) h2
    (by rfl) (by rfl) (by rfl) (by decide) (by decide)
  exact ⟨w1.trans (by rfl), w2.trans (by rfl)⟩

/-- The three-day state with `saturating_min = 0` and `saturating_max = 100`. -/
def c7s : MakeDataState := ⟨"ds", "y", "D", none, none, none, some 0, some 100⟩

/-- The state after preparing `c5rs` under `c7s`. -/
def c7out : MakeDataState := ⟨"ds", "y", "D", some 1, some 3, none, some 0, some 100⟩

/-- The prepared frame under the saturating bounds: constant `floor`/`cap`
columns on every row. -/
def c7f : Frame :=
  ⟨["ds", "y", "floor", "cap"],
   [[Cell.ts 1, Cell.num 5, Cell.num 0, Cell.num 100],
    [Cell.ts 2, Cell.na, Cell.num 0, Cell.num 100],
    [Cell.ts 3, Cell.num 7, Cell.num 0, Cell.num 100]]⟩

/-- Witness for C7 with `saturating_min = 0`, `saturating_max = 100`: every
row has `floor = 0` and `cap = 100`. -/
theorem saturating_bounds_columns_witness :
    c7f.col? "floor" = some [Cell.num 0, Cell.num 0, Cell.num 0] ∧
    c7f.col? "cap" = some [Cell.num 100, Cell.num 100, Cell.num 100] := by
  have h : make_data c7s (rawFrame "ds" "y" c5rs) = some (c7out, c7f) := by rfl
  have w := saturating_bounds_columns c7s c5rs c7out c7f (by decide) (by decide) h
  exact ⟨(w.1 0 rfl).trans (by rfl), (w.2.2.1 100 rfl).trans (by rfl)⟩

/-- C8 (amended): whenever the configured value-column name differs from
`'ds'` and from the timestamp-column name, the prepared series' columns are
exactly `'ds'` and `'y'`, plus `floor`/`cap` when the saturating bounds are
configured — for every choice of such column names.  (When the value column
is itself named `'ds'` while the timestamp column is not, pandas suffixes the
colliding labels and the prepared columns are `ds_x`/`ds_y` instead; see the
counterexample.) -/
theorem prepared_columns (s : MakeDataState) (rs : List (Int × ℚ))
    (s' : MakeDataState) (f : Frame)
    (hy1 : s.y ≠ "ds") (hy2 : s.y ≠ s.ds)
    (h : make_data s (rawFrame s.ds s.y rs) = some (s', f)) :
    f.cols = ["ds", "y"] ++ extraCols s ∧
    (s.saturating_min = none → s.saturating_max = none → f.cols = ["ds", "y"]) := by
  obtain ⟨lo, hi, step, hlo, hhi, hstep, hs', hf⟩ :=
    make_data_rawFrame_inv s rs s' f hy1 hy2 h
  subst hf
  refine ⟨rfl, ?_⟩
  intro h1 h2
  simp [extraCols, h1, h2]

/-- The configuration whose value column is named `'ds'` while the timestamp
column is named `'date'`. -/
def c8s : MakeDataState := ⟨"date", "ds", "D", none, none, none, none, none⟩

/-- C8 counterexample: with the value column named `'ds'` and the timestamp
column named `'date'`, both merge inputs carry a `'ds'` label, pandas attaches
the `_x`/`_y` suffixes, the rename to `'y'` finds no `'ds'` column, and the
prepared columns come out as `ds_x`/`ds_y` — not `'ds'` and `'y'`. -/
theorem prepared_columns_collision :
    ((make_data c8s (rawFrame "date" "ds" [(0, 5)])).map fun p => p.2.cols)
      = some ["ds_x", "ds_y"] ∧
    (["ds_x", "ds_y"] : List String) ≠ ["ds", "y"] := by
  exact ⟨by rfl, by decide⟩

/-- The configuration with fully custom, non-colliding column names. -/
def c8ws : MakeDataState := ⟨"date", "sales", "D", none, none, none, none, none⟩

/-- The state after preparing `c5rs` under `c8ws`. -/
def c8wout : MakeDataState := ⟨"date", "sales", "D", some 1, some 3, none, none, none⟩

/-- Witness for C8 (amended): custom names `date`/`sales` still produce the
canonical columns `'ds'`, `'y'`. -/
theorem prepared_columns_witness :
    c5f.cols = ["ds", "y"] := by
  have h : make_data c8ws (rawFrame "date" "sales" c5rs) = some (c8wout, c5f) := by rfl
  exact (prepared_columns c8ws c5rs c8wout c5f (by decide) (by decide) h).2 rfl rfl

/-- C9: the driver script calls `p.run()`, but `run` is not among the methods
the pipeline class defines, so for every configuration that constructs
successfully the driver fails with an attribute-lookup error on `run`
immediately after construction, before any data preparation, training or
prediction stage executes. -/
theorem run_method_missing :
    "run" ∉ prophetableMethods ∧
    ∀ (cfg : Config) (s : Prophetable), Prophetable.init cfg = Except.ok s →
      driverRun cfg = (DriverResult.attributeError "run", []) := by
  constructor
  · decide
  · intro cfg s h
    rw [driverRun.eq_def, h]
    rfl

/-- Witness for C9 at the minimal valid config: the driver run ends in the
attribute error with no stage executed. -/
theorem run_method_missing_witness :
    driverRun c4cfg = (DriverResult.attributeError "run", []) :=
  run_method_missing.2 c4cfg c4resolved (by rfl)
